import Mathlib

/-!
Verification of the Moorhen command/worker messaging system and the map
contouring / display-buffer pipeline, as a shallow embedding of the
TypeScript sources (`MoorhenCommandCentre` in
`src/baby-gru/src/components/BabyGruButtonBar.js` and `MoorhenMap` in
`src/baby-gru/src/utils/MoorhenMap.ts`).

Conventions of the embedding:
* JavaScript numbers used for colours, alpha and contour parameters are
  modelled as `ℚ` (only comparisons and stores occur, no rounding).
* JavaScript arrays are `List`s; out-of-range reads are totalised with
  `List.getD` and out-of-range writes with `List.set` (a no-op), the
  in-range behaviour being identical to the source.
* Correlation ids (uuid strings in the source) are modelled as `Nat`,
  with `0` playing the role of the falsy (empty) id in truthiness tests.
* Mutation is modelled by explicit state passing; calls into the GL
  rendering subsystem and into the worker are recorded as `MapEffect`s.
-/

/-! ## Message Channel Adapter (`MoorhenCommandCentre`) -/

/-- One entry of `MoorhenCommandCentre.activeMessages`: the in-flight set.
`reqIdx` identifies the pending promise (the `handler` closure) of the
request; `messageId` is the generated correlation id. -/
structure PendingMsg where
  messageId : Nat
  reqIdx : Nat
deriving DecidableEq

/-- A reply from the worker: `reply.data.messageId` together with an opaque
payload. -/
structure WorkerReply where
  messageId : Nat
  payload : Nat
deriving DecidableEq

/-- `MoorhenCommandCentre.postMessage`: pushes a fresh entry onto
`activeMessages` (the promise construction and the worker post are the
surrounding effects; the id is generated by `uuidv4`, here a parameter). -/
def postMessage (activeMessages : List PendingMsg) (messageId reqIdx : Nat) :
    List PendingMsg :=
  activeMessages ++ [⟨messageId, reqIdx⟩]

/-- A batch of `postMessage` calls, one per `(messageId, reqIdx)` pair. -/
def postMessages (activeMessages : List PendingMsg) :
    List (Nat × Nat) → List PendingMsg
  | [] => activeMessages
  | q :: qs => postMessages (postMessage activeMessages q.1 q.2) qs

/-- `MoorhenCommandCentre.handleMessage`: every active message whose truthy
`messageId` equals `reply.data.messageId` has its handler invoked with the
reply (recorded here as a `(reqIdx, reply)` resolution), and every active
message whose `messageId` equals the reply's is removed from the in-flight
set. -/
def handleMessage (activeMessages : List PendingMsg) (reply : WorkerReply) :
    List PendingMsg × List (Nat × WorkerReply) :=
  let matched := activeMessages.filter
    (fun message => message.messageId != 0 && message.messageId == reply.messageId)
  (activeMessages.filter (fun message => message.messageId != reply.messageId),
   matched.map (fun message => (message.reqIdx, reply)))

/-- Delivery of a sequence of worker replies to the adapter, in arrival
order; returns the final in-flight set and the list of resolutions
performed (which promise resolved, with which reply). -/
def processReplies :
    List PendingMsg → List WorkerReply → List PendingMsg × List (Nat × WorkerReply)
  | activeMessages, [] => (activeMessages, [])
  | activeMessages, r :: rs =>
    let step := handleMessage activeMessages r
    let rest := processReplies step.1 rs
    (rest.1, step.2 ++ rest.2)

theorem postMessages_eq (qs : List (Nat × Nat)) :
    ∀ st, postMessages st qs = st ++ qs.map (fun q => ⟨q.1, q.2⟩) := by
  induction qs with
  | nil => intro st; simp [postMessages]
  | cons q qs ih =>
    intro st
    simp [postMessages, postMessage, ih]

theorem processReplies_resolved_reqIdx_mem (rs : List WorkerReply) :
    ∀ st p, p ∈ (processReplies st rs).2 → p.1 ∈ st.map PendingMsg.reqIdx := by
  induction rs with
  | nil => intro st p hp; simp [processReplies] at hp
  | cons r rs ih =>
    intro st p hp
    simp only [processReplies] at hp
    rcases List.mem_append.mp hp with h | h
    · simp only [handleMessage, List.mem_map] at h
      obtain ⟨m, hm, he⟩ := h
      have : m.reqIdx ∈ st.map PendingMsg.reqIdx :=
        List.mem_map_of_mem _ (List.mem_of_mem_filter hm)
      simpa [← he] using this
    · have hmem := ih _ p h
      simp only [handleMessage, List.mem_map] at hmem
      obtain ⟨m, hm, he⟩ := hmem
      have : m.reqIdx ∈ st.map PendingMsg.reqIdx :=
        List.mem_map_of_mem _ (List.mem_of_mem_filter hm)
      simpa [← he] using this

theorem filter_matched_eq_singleton (m : PendingMsg) :
    ∀ st : List PendingMsg, m ∈ st → m.messageId ≠ 0 →
      (st.map PendingMsg.messageId).Nodup →
      st.filter (fun x => x.messageId != 0 && x.messageId == m.messageId) = [m] := by
  intro st
  induction st with
  | nil => intro hm; cases hm
  | cons a st ih =>
    intro hm hnz hnd
    rw [List.map_cons, List.nodup_cons] at hnd
    rcases List.mem_cons.mp hm with rfl | hm'
    · have htail : st.filter (fun x => x.messageId != 0 && x.messageId == m.messageId)
          = [] := by
        rw [List.filter_eq_nil_iff]
        intro x hx hpx
        apply hnd.1
        have hpx' : x.messageId ≠ 0 ∧ x.messageId = m.messageId := by simpa using hpx
        exact hpx'.2 ▸ List.mem_map_of_mem _ hx
      simp [List.filter_cons, hnz, htail]
    · have haid : a.messageId ≠ m.messageId := by
        intro he
        exact hnd.1 (he ▸ List.mem_map_of_mem _ hm')
      simp [List.filter_cons, haid, ih hm' hnz hnd.2]

theorem processReplies_correlation (rs : List WorkerReply) :
    ∀ st m, m ∈ st →
      (st.map PendingMsg.messageId).Nodup →
      (st.map PendingMsg.reqIdx).Nodup →
      (∀ x ∈ st, x.messageId ≠ 0) →
      (rs.map WorkerReply.messageId).Nodup →
      m.messageId ∈ rs.map WorkerReply.messageId →
      ∃ r ∈ rs, r.messageId = m.messageId ∧
        (processReplies st rs).2.filter (fun p => p.1 == m.reqIdx) = [(m.reqIdx, r)] := by
  induction rs with
  | nil => intro st m _ _ _ _ _ hmem; simp at hmem
  | cons r rs ih =>
    intro st m hm hndId hndReq hnz hndR hmem
    by_cases hr : r.messageId = m.messageId
    · refine ⟨r, List.mem_cons_self r rs, hr, ?_⟩
      have hstep : (handleMessage st r).2 = [(m.reqIdx, r)] := by
        simp only [handleMessage]
        rw [hr, filter_matched_eq_singleton m st hm (hnz m hm) hndId]
        simp
      have h2 : (processReplies (handleMessage st r).1 rs).2.filter
          (fun p => p.1 == m.reqIdx) = [] := by
        rw [List.filter_eq_nil_iff]
        intro p hp
        have hmem' := processReplies_resolved_reqIdx_mem rs _ p hp
        simp only [handleMessage, List.mem_map] at hmem'
        obtain ⟨x, hx, hxe⟩ := hmem'
        have hxs := List.mem_of_mem_filter hx
        have hxid : x.messageId ≠ r.messageId := by
          have := List.of_mem_filter hx
          simpa using this
        have hxm : x ≠ m := by
          intro he; exact hxid (by rw [he, hr])
        have hne : x.reqIdx ≠ m.reqIdx := by
          intro he
          exact hxm (List.inj_on_of_nodup_map hndReq hxs hm he)
        simp [← hxe, hne]
      simp only [processReplies, List.filter_append, hstep, h2, List.append_nil]
      simp
    · have hstep2 : (handleMessage st r).2.filter (fun p => p.1 == m.reqIdx) = [] := by
        rw [List.filter_eq_nil_iff]
        intro p hp
        simp only [handleMessage, List.mem_map] at hp
        obtain ⟨x, hx, hxe⟩ := hp
        have hxs := List.mem_of_mem_filter hx
        have hxid : x.messageId = r.messageId := by
          have hx' := List.of_mem_filter hx
          have hx'' : x.messageId ≠ 0 ∧ x.messageId = r.messageId := by simpa using hx'
          exact hx''.2
        have hxm : x ≠ m := by
          intro he; exact hr (by rw [← hxid, he])
        have hne : x.reqIdx ≠ m.reqIdx := by
          intro he
          exact hxm (List.inj_on_of_nodup_map hndReq hxs hm he)
        simp [← hxe, hne]
      have hm' : m ∈ (handleMessage st r).1 := by
        simp only [handleMessage]
        rw [List.mem_filter]
        refine ⟨hm, ?_⟩
        simp only [bne_iff_ne, ne_eq]
        exact fun h => hr h.symm
      have hsub : (handleMessage st r).1.Sublist st := by
        simp only [handleMessage]
        exact List.filter_sublist st
      have hndId' : ((handleMessage st r).1.map PendingMsg.messageId).Nodup :=
        List.Nodup.sublist (hsub.map _) hndId
      have hndReq' : ((handleMessage st r).1.map PendingMsg.reqIdx).Nodup :=
        List.Nodup.sublist (hsub.map _) hndReq
      have hnz' : ∀ x ∈ (handleMessage st r).1, x.messageId ≠ 0 :=
        fun x hx => hnz x (hsub.mem hx)
      have hmem' : m.messageId ∈ rs.map WorkerReply.messageId := by
        rw [List.map_cons, List.mem_cons] at hmem
        rcases hmem with h | h
        · exact absurd h.symm hr
        · exact h
      have hndR' : (rs.map WorkerReply.messageId).Nodup := by
        rw [List.map_cons, List.nodup_cons] at hndR
        exact hndR.2
      obtain ⟨r', hr', he, hfil⟩ := ih _ m hm' hndId' hndReq' hnz' hndR' hmem'
      refine ⟨r', List.mem_cons_of_mem r hr', he, ?_⟩
      simp only [processReplies, List.filter_append, hstep2, hfil, List.nil_append]

/-- C1: for every set of concurrent requests posted through the adapter's
`postMessage` (distinct nonzero correlation ids, distinct promises), and
every arrival order of the replies (a permutation of the request ids),
each request's promise is resolved exactly once, and it is resolved with
the reply whose correlation id equals the id generated for that request. -/
theorem postMessage_correlation (reqs : List (Nat × Nat)) (rs : List WorkerReply)
    (hndId : (reqs.map Prod.fst).Nodup)
    (hndReq : (reqs.map Prod.snd).Nodup)
    (hnz : ∀ q ∈ reqs, q.1 ≠ 0)
    (hperm : (rs.map WorkerReply.messageId).Perm (reqs.map Prod.fst))
    (q : Nat × Nat) (hq : q ∈ reqs) :
    ∃ r ∈ rs, r.messageId = q.1 ∧
      (processReplies (postMessages [] reqs) rs).2.filter (fun p => p.1 == q.2) =
        [(q.2, r)] := by
  have hst : postMessages [] reqs = reqs.map (fun q => ⟨q.1, q.2⟩) := by
    simpa using postMessages_eq reqs []
  have hmapId : (postMessages [] reqs).map PendingMsg.messageId = reqs.map Prod.fst := by
    rw [hst, List.map_map]; rfl
  have hmapReq : (postMessages [] reqs).map PendingMsg.reqIdx = reqs.map Prod.snd := by
    rw [hst, List.map_map]; rfl
  have hm : (⟨q.1, q.2⟩ : PendingMsg) ∈ postMessages [] reqs := by
    rw [hst]
    exact List.mem_map_of_mem _ hq
  have hnz' : ∀ x ∈ postMessages [] reqs, x.messageId ≠ 0 := by
    intro x hx
    rw [hst] at hx
    obtain ⟨p, hp, he⟩ := List.mem_map.mp hx
    rw [← he]
    exact hnz p hp
  have hndR : (rs.map WorkerReply.messageId).Nodup :=
    (hperm.nodup_iff).mpr hndId
  have hmem : (⟨q.1, q.2⟩ : PendingMsg).messageId ∈ rs.map WorkerReply.messageId := by
    rw [hperm.mem_iff]
    exact List.mem_map_of_mem _ hq
  exact processReplies_correlation rs (postMessages [] reqs) ⟨q.1, q.2⟩ hm
    (hmapId ▸ hndId) (hmapReq ▸ hndReq) hnz' hndR hmem

/-- Witness for C1 at two concrete requests whose replies arrive out of
send order. -/
theorem postMessage_correlation_witness :
    ([(1, 0), (2, 1)].map (Prod.fst (β := Nat))).Nodup ∧
    (∃ r ∈ [WorkerReply.mk 2 42, WorkerReply.mk 1 7], r.messageId = 1 ∧
      (processReplies (postMessages [] [(1, 0), (2, 1)])
          [WorkerReply.mk 2 42, WorkerReply.mk 1 7]).2.filter (fun p => p.1 == 0) =
        [(0, r)]) :=
  ⟨by decide,
   postMessage_correlation [(1, 0), (2, 1)] [WorkerReply.mk 2 42, WorkerReply.mk 1 7]
     (by decide) (by decide) (by decide) (by decide) (1, 0) (by decide)⟩

/-! ## Command Centre journaling (`cootCommand` / `cootCommandList`) -/

/-- A command descriptor (`moorhen.cootCommandKwargs`): the command name and
the optional `changesMolecules` declaration used by the journaling test. -/
structure CootCommandKwargs where
  command : String
  changesMolecules : Option (List Nat)
deriving DecidableEq

/-- Modelled from the spec: the History/Journal operation `addEntry`
(§4.3 of the spec) appends one descriptor to the ordered journal;
the `MoorhenHistory` class itself is not among the sources. -/
def addEntry (history : List CootCommandKwargs) (kwargs : CootCommandKwargs) :
    List CootCommandKwargs :=
  history ++ [kwargs]

/-- The journaling performed by `MoorhenCommandCentre.cootCommand`: an entry
is appended when `doJournal` holds and the descriptor declares a nonempty
`changesMolecules` (the `kwargs.changesMolecules?.length > 0` test). -/
def cootCommand (history : List CootCommandKwargs) (kwargs : CootCommandKwargs)
    (doJournal : Bool) : List CootCommandKwargs :=
  if doJournal && (match kwargs.changesMolecules with
                   | some l => decide (0 < l.length)
                   | none => false) then
    addEntry history kwargs
  else history

/-- The journaling performed by `MoorhenCommandCentre.cootCommandList`: when
`doJournal` holds, every descriptor of the batch is journaled, in order. -/
def cootCommandList (history : List CootCommandKwargs)
    (commandList : List CootCommandKwargs) (doJournal : Bool) :
    List CootCommandKwargs :=
  if doJournal then commandList.foldl addEntry history else history

theorem foldl_addEntry (l : List CootCommandKwargs) :
    ∀ history, l.foldl addEntry history = history ++ l := by
  induction l with
  | nil => intro h; simp
  | cons a l ih => intro h; simp [List.foldl_cons, addEntry, ih]

def demoDescriptors : List CootCommandKwargs :=
  [⟨"cmdA", some [0]⟩, ⟨"cmdB", none⟩, ⟨"cmdC", some [1]⟩]

/-- C4 counterexample: a batch of 3 descriptors of which exactly 2 declare
that they mutate persistent entities yields 3 new history entries, not 2:
`cootCommandList` journals every descriptor regardless of its
`changesMolecules` declaration. -/
theorem cootCommandList_journals_all_counterexample :
    (cootCommand [] ⟨"cmdA", some [0]⟩ true).length = 1 ∧
    (cootCommand [] ⟨"cmdB", none⟩ true).length = 0 ∧
    (cootCommand [] ⟨"cmdC", some [1]⟩ true).length = 1 ∧
    (cootCommandList [] demoDescriptors true).length = 3 ∧
    ¬ (cootCommandList [] demoDescriptors true).length = 2 := by
  decide

/-- C4 (amended): for every call to `cootCommandList` with `journal = true`
and a list of N descriptors, exactly N new history entries are appended,
one per descriptor, in the original descriptor order — the per-descriptor
`changesMolecules` test of `cootCommand` is not applied to batches. -/
theorem cootCommandList_journal_appends_all (history : List CootCommandKwargs)
    (commandList : List CootCommandKwargs) :
    cootCommandList history commandList true = history ++ commandList := by
  simp [cootCommandList, foldl_addEntry]

/-! ## Console diagnostic truncation (`handleMessage`) -/

/-- The diagnostic text surfaced to the running log by
`MoorhenCommandCentre.handleMessage`: an incoming `consoleMessage` longer
than 160 units is replaced by a marker wrapping its first 160 units.
Text is modelled as a list of (UTF-16) units. -/
def surfaceConsoleMessage (consoleMessage : List Char) : List Char :=
  if 160 < consoleMessage.length then
    "TRUNCATED TO [".data ++ consoleMessage.take 160 ++ [']']
  else consoleMessage

set_option maxRecDepth 4000 in
/-- C6 counterexample: an incoming diagnostic of 161 units exceeds the
limit, and the surfaced form has length 175, not at most 160 — the marker
text is added around the 160 retained units. -/
theorem surfaceConsoleMessage_counterexample :
    160 < (List.replicate 161 'a').length ∧
    ¬ ((surfaceConsoleMessage (List.replicate 161 'a')).length ≤ 160) := by
  decide

/-- C6 (amended): the surfaced diagnostic is still bounded, but the bound is
175 units, not 160: whenever the incoming diagnostic exceeds 160 units,
the surfaced form has length exactly 175 (the 160 retained units plus the
15-unit truncation marker). -/
theorem surfaceConsoleMessage_bound (consoleMessage : List Char)
    (h : 160 < consoleMessage.length) :
    (surfaceConsoleMessage consoleMessage).length = 175 := by
  have hpre : ("TRUNCATED TO [".data).length = 14 := by decide
  simp only [surfaceConsoleMessage, if_pos h, List.length_append, List.length_take,
    List.length_singleton, hpre]
  omega

set_option maxRecDepth 4000 in
/-- Witness for C6 (amended) at a concrete 161-unit diagnostic. -/
theorem surfaceConsoleMessage_bound_witness :
    160 < (List.replicate 161 'a').length ∧
    (surfaceConsoleMessage (List.replicate 161 'a')).length = 175 :=
  ⟨by decide, surfaceConsoleMessage_bound _ (by decide)⟩

/-! ## Volumetric entity (`MoorhenMap`) data model -/

/-- A colour triple with channels in `[0, 1]`. -/
structure Rgb where
  r : ℚ
  g : ℚ
  b : ℚ
deriving DecidableEq

def _DEFAULT_CONTOUR_LEVEL : ℚ := mkRat 4 5

def _DEFAULT_RADIUS : ℚ := 13

def _DEFAULT_STYLE : String := "lines"

def _DEFAULT_ALPHA : ℚ := 1

def _DEFAULT_MAP_COLOUR : Rgb :=
  ⟨(mkRat 30000001192092896 100000000000000000), (mkRat 30000001192092896 100000000000000000), (mkRat 699999988079071 1000000000000000)⟩

def _DEFAULT_POSITIVE_MAP_COLOUR : Rgb :=
  ⟨(mkRat 4000000059604645 10000000000000000), (mkRat 800000011920929 1000000000000000), (mkRat 4000000059604645 10000000000000000)⟩

def _DEFAULT_NEGATIVE_MAP_COLOUR : Rgb :=
  ⟨(mkRat 800000011920929 1000000000000000), (mkRat 4000000059604645 10000000000000000), (mkRat 4000000059604645 10000000000000000)⟩

structure MolNoRadius where
  molNo : Nat
  radius : ℚ
deriving DecidableEq

structure MolNoContourLevel where
  molNo : Nat
  contourLevel : ℚ
deriving DecidableEq

structure MolNoAlpha where
  molNo : Nat
  alpha : ℚ
deriving DecidableEq

structure MolNoStyle where
  molNo : Nat
  style : String
deriving DecidableEq

/-- A colour triple as stored in the settings store (0–255 channels). -/
structure Rgb255 where
  r : ℚ
  g : ℚ
  b : ℚ
deriving DecidableEq

structure MolNoColour where
  molNo : Nat
  rgb : Rgb255
deriving DecidableEq

/-- The `mapContourSettings` slice of the redux store, as consumed by
`MoorhenMap.getMapContourParams`. -/
structure MapContourSettingsState where
  mapRadii : List MolNoRadius
  contourLevels : List MolNoContourLevel
  mapAlpha : List MolNoAlpha
  mapStyles : List MolNoStyle
  mapColours : List MolNoColour
  negativeMapColours : List MolNoColour
  positiveMapColours : List MolNoColour
deriving DecidableEq

/-- The record returned by `MoorhenMap.getMapContourParams`. -/
structure MapContourParams where
  mapRadius : ℚ
  contourLevel : ℚ
  mapAlpha : ℚ
  mapStyle : String
  mapColour : Rgb
  positiveMapColour : Rgb
  negativeMapColour : Rgb
deriving DecidableEq

/-- The JavaScript truthiness fallback `v ? v : d` on a possibly missing
number: a missing entry and a stored `0` both fall back to the default. -/
def truthyNumOr (v : Option ℚ) (d : ℚ) : ℚ :=
  match v with
  | none => d
  | some x => if x = 0 then d else x

/-- The JavaScript truthiness fallback `v ? v : d` on a possibly missing
string: a missing entry and the empty string both fall back. -/
def truthyStrOr (v : Option String) (d : String) : String :=
  match v with
  | none => d
  | some s => if s = "" then d else s

/-- The fallback `c ? scaled c : d` on a possibly missing colour record
(an object is always truthy when present). -/
def colourOr (v : Option Rgb255) (d : Rgb) : Rgb :=
  match v with
  | none => d
  | some c => ⟨c.r / 255, c.g / 255, c.b / 255⟩

/-- `MoorhenMap.getMapContourParams`: reads the per-`molNo` display settings
from the store, falling back to the built-in defaults via JavaScript
truthiness tests; the three default colours are the instance fields
`defaultMapColour`, `defaultPositiveMapColour`, `defaultNegativeMapColour`. -/
def getMapContourParams (state : MapContourSettingsState) (molNo : Nat)
    (defaultMapColour defaultPositiveMapColour defaultNegativeMapColour : Rgb) :
    MapContourParams :=
  let radius := (state.mapRadii.find? (fun item => item.molNo == molNo)).map
    MolNoRadius.radius
  let level := (state.contourLevels.find? (fun item => item.molNo == molNo)).map
    MolNoContourLevel.contourLevel
  let alpha := (state.mapAlpha.find? (fun item => item.molNo == molNo)).map
    MolNoAlpha.alpha
  let style := (state.mapStyles.find? (fun item => item.molNo == molNo)).map
    MolNoStyle.style
  let mapColour := (state.mapColours.find? (fun item => item.molNo == molNo)).map
    MolNoColour.rgb
  let negativeMapColour := (state.negativeMapColours.find?
    (fun item => item.molNo == molNo)).map MolNoColour.rgb
  let positiveMapColour := (state.positiveMapColours.find?
    (fun item => item.molNo == molNo)).map MolNoColour.rgb
  { mapRadius := truthyNumOr radius _DEFAULT_RADIUS,
    contourLevel := truthyNumOr level _DEFAULT_CONTOUR_LEVEL,
    mapAlpha := truthyNumOr alpha _DEFAULT_ALPHA,
    mapStyle := truthyStrOr style _DEFAULT_STYLE,
    mapColour := colourOr mapColour defaultMapColour,
    negativeMapColour := colourOr negativeMapColour defaultNegativeMapColour,
    positiveMapColour := colourOr positiveMapColour defaultPositiveMapColour }

/-- The mesh object returned by a contour request (`get_map_contours_mesh`):
nested triangle data exactly as traversed by `setupContourBuffers`. -/
structure MeshObject where
  prim_types : List (List Nat)
  idx_tri : List (List (List Nat))
  vert_tri : List (List (List ℚ))
  norm_tri : List (List (List ℚ))
  col_tri : List (List (List ℚ))
deriving DecidableEq

/-- A GPU display buffer, as referenced by `displayObjects['Coot']`. -/
structure DisplayBuffer where
  id : Nat
  bufferTypes : List Nat
  triangleVertices : List (List ℚ)
  triangleNormals : List (List ℚ)
  triangleColours : List (List ℚ)
  triangleIndexs : List (List Nat)
  transparent : Bool
  isDirty : Bool
  alphaChanged : Bool
  customColour : Option (List ℚ)
deriving DecidableEq

/-- The global GL buffer set (`glRef.current.displayBuffers`), tracked by
buffer id, together with the id generator for fresh buffers. -/
structure GlState where
  bufferIds : List Nat
  nextId : Nat
deriving DecidableEq

/-- The mutable state of one `MoorhenMap` instance that the contouring and
recolouring operations touch: the difference flag, the `Coot` display
objects, and the stored `diffMapColourBuffers` colour-offset partition. -/
structure MapState where
  isDifference : Bool
  hasReflectionData : Bool
  otherMapForColouring : Option Nat
  displayObjectsCoot : List DisplayBuffer
  positiveDiffColour : List Nat
  negativeDiffColour : List Nat
deriving DecidableEq

/-- A map instance together with the (shared) GL buffer set. -/
structure MapWorld where
  map : MapState
  gl : GlState
deriving DecidableEq

/-- The outward calls an operation performs, in order: worker messages
(`cootCommand` / `postMessage`) and rendering-subsystem calls. -/
inductive MapEffect where
  | cootCommand (command : String)
  | postMessage (message : String)
  | buildBuffers
  | drawScene
  | consoleError (msg : String)
deriving DecidableEq

def MapEffect.isEngineCall : MapEffect → Bool
  | .cootCommand _ => true
  | .postMessage _ => true
  | .buildBuffers => false
  | .drawScene => false
  | .consoleError _ => false

/-! ## Difference-map colour partitioning (`setupContourBuffers`) -/

/-- Write one rgba quadruple starting at offset `k` of a flat colour row
(the four consecutive stores of the source). -/
def set4 (row : List ℚ) (k : Nat) (c : Rgb) (alpha : ℚ) : List ℚ :=
  (((row.set k c.r).set (k + 1) c.g).set (k + 2) c.b).set (k + 3) alpha

/-- Result of the innermost partition loop (`for idx ...` over one `idxs`). -/
structure DiffSplitRes where
  thisPos : List Nat
  thisNeg : List Nat
  posOffs : List Nat
  negOffs : List Nat
  posRow : List ℚ
  negRow : List ℚ
deriving DecidableEq

/-- The innermost loop of the difference branch of `setupContourBuffers`:
each index is tested on the red channel `object.col_tri[i][j][idx*4]` of
the ORIGINAL mesh; `< 0.5` sends it (and its colour offset `idx*4`) to the
positive lobe, anything else to the negative lobe, recolouring the
respective clone's row. -/
def splitIdxList (origRow : List ℚ) (pc nc : Rgb) (alpha : ℚ) :
    List Nat → List ℚ → List ℚ → DiffSplitRes
  | [], posRow, negRow => ⟨[], [], [], [], posRow, negRow⟩
  | idx :: rest, posRow, negRow =>
    if origRow.getD (idx * 4) 0 < mkRat 1 2 then
      let res := splitIdxList origRow pc nc alpha rest (set4 posRow (idx * 4) pc alpha) negRow
      { res with thisPos := idx :: res.thisPos, posOffs := idx * 4 :: res.posOffs }
    else
      let res := splitIdxList origRow pc nc alpha rest posRow (set4 negRow (idx * 4) nc alpha)
      { res with thisNeg := idx :: res.thisNeg, negOffs := idx * 4 :: res.negOffs }

/-- Result of the middle partition loop (over `idxss` with counter `j`). -/
structure DiffGroupRes where
  posIdx : List (List Nat)
  negIdx : List (List Nat)
  posOffs : List Nat
  negOffs : List Nat
  posRows : List (List ℚ)
  negRows : List (List ℚ)
deriving DecidableEq

/-- The middle loop of the difference branch: one `splitIdxList` pass per
`idxs`, with `j` indexing the colour rows of the current `i` group. -/
def splitIdxGroup (origRows : List (List ℚ)) (pc nc : Rgb) (alpha : ℚ) :
    List (List Nat) → Nat → List (List ℚ) → List (List ℚ) → DiffGroupRes
  | [], _, posRows, negRows => ⟨[], [], [], [], posRows, negRows⟩
  | idxs :: rest, j, posRows, negRows =>
    let s := splitIdxList (origRows.getD j []) pc nc alpha idxs
      (posRows.getD j []) (negRows.getD j [])
    let res := splitIdxGroup origRows pc nc alpha rest (j + 1)
      (posRows.set j s.posRow) (negRows.set j s.negRow)
    { res with
      posIdx := s.thisPos :: res.posIdx, negIdx := s.thisNeg :: res.negIdx,
      posOffs := s.posOffs ++ res.posOffs, negOffs := s.negOffs ++ res.negOffs }

/-- Result of the outer partition loop (over `object.idx_tri` with `i`). -/
structure DiffMeshRes where
  posIdxTri : List (List (List Nat))
  negIdxTri : List (List (List Nat))
  posOffs : List Nat
  negOffs : List Nat
  posColTri : List (List (List ℚ))
  negColTri : List (List (List ℚ))
deriving DecidableEq

/-- The outer loop of the difference branch (over `object.idx_tri`). -/
def splitIdxTri (origColTri : List (List (List ℚ))) (pc nc : Rgb) (alpha : ℚ) :
    List (List (List Nat)) → Nat → List (List (List ℚ)) → List (List (List ℚ)) →
    DiffMeshRes
  | [], _, posColTri, negColTri => ⟨[], [], [], [], posColTri, negColTri⟩
  | idxss :: rest, i, posColTri, negColTri =>
    let s := splitIdxGroup (origColTri.getD i []) pc nc alpha idxss 0
      (posColTri.getD i []) (negColTri.getD i [])
    let res := splitIdxTri origColTri pc nc alpha rest (i + 1)
      (posColTri.set i s.posRows) (negColTri.set i s.negRows)
    { res with
      posIdxTri := s.posIdx :: res.posIdxTri,
      negIdxTri := s.negIdx :: res.negIdxTri,
      posOffs := s.posOffs ++ res.posOffs, negOffs := s.negOffs ++ res.negOffs }

/-- The complete partition of one mesh performed by the difference branch of
`setupContourBuffers`: both clones start as structured clones of the
object, their `idx_tri` rebuilt from scratch and their `col_tri` recoloured
in place. -/
def diffSplitMesh (object : MeshObject) (pc nc : Rgb) (alpha : ℚ) : DiffMeshRes :=
  splitIdxTri object.col_tri pc nc alpha object.idx_tri 0 object.col_tri object.col_tri

/-! ## Recolouring helpers -/

/-- The non-difference recolouring loop body of `setupContourBuffers`
(`for idx; idx < col.length; idx += 4`): every rgba quadruple of a flat
colour row is overwritten with the configured colour and alpha. A trailing
partial quadruple is still written in full (the JavaScript loop extends
the array). -/
def recolourRow (c : Rgb) (alpha : ℚ) : List ℚ → List ℚ
  | _ :: _ :: _ :: _ :: rest => c.r :: c.g :: c.b :: alpha :: recolourRow c alpha rest
  | [] => []
  | _ => [c.r, c.g, c.b, alpha]

/-- The full `object.col_tri` recolouring of the non-difference branch. -/
def recolourColTri (c : Rgb) (alpha : ℚ) (colTri : List (List (List ℚ))) :
    List (List (List ℚ)) :=
  colTri.map (fun cols => cols.map (fun col => recolourRow c alpha col))

/-- The `setColour` recolouring loop (`for idx; idx < colbuffer.length;
idx += 4` writing only the three colour channels, leaving alpha alone). -/
def recolourRgbRow (c : Rgb) : List ℚ → List ℚ
  | _ :: _ :: _ :: x3 :: rest => c.r :: c.g :: c.b :: x3 :: recolourRgbRow c rest
  | [] => []
  | _ => [c.r, c.g, c.b]

/-- The `fetchMapAlphaAndRedraw` loop (`for idx = 3; idx < colbuffer.length;
idx += 4` writing only the alpha channel). -/
def setAlphaRow (mapAlpha : ℚ) : List ℚ → List ℚ
  | x0 :: x1 :: x2 :: _ :: rest => x0 :: x1 :: x2 :: mapAlpha :: setAlphaRow mapAlpha rest
  | l => l

/-- The `fetchDiffMapColourAndRedraw` loop over the stored colour-offset
partition: `colbuffer[idx] = r; colbuffer[idx+1] = g; colbuffer[idx+2] = b`
for each recorded offset. -/
def writeColourAtOffsets (c : Rgb) (offs : List Nat) (colbuffer : List ℚ) : List ℚ :=
  offs.foldl (fun row idx => ((row.set idx c.r).set (idx + 1) c.g).set (idx + 2) c.b)
    colbuffer

/-! ## GL collaborator abstractions and buffer management -/

/-- Modelled from the spec: the GPU buffer-builder abstraction
`appendOtherData` (§6, consumed collaborator interfaces) is not among the
sources; it creates one `DisplayBuffer` from a mesh object — its typed
arrays taken from the first group of the mesh — registers it with the
global GL buffer set under a fresh id, and returns it. -/
def appendOtherData (gl : GlState) (object : MeshObject) : DisplayBuffer × GlState :=
  let buf : DisplayBuffer :=
    { id := gl.nextId,
      bufferTypes := object.prim_types.getD 0 [],
      triangleVertices := object.vert_tri.getD 0 [],
      triangleNormals := object.norm_tri.getD 0 [],
      triangleColours := object.col_tri.getD 0 [],
      triangleIndexs := object.idx_tri.getD 0 [],
      transparent := false, isDirty := false, alphaChanged := false,
      customColour := none }
  (buf, { gl with bufferIds := gl.bufferIds ++ [buf.id], nextId := gl.nextId + 1 })

/-- Modelled from the spec: the GPU buffer abstraction `setCustomColour`
(§6) sets a uniform colour on a buffer without touching its per-vertex
colour arrays. -/
def setCustomColour (buffer : DisplayBuffer) (c : List ℚ) : DisplayBuffer :=
  { buffer with customColour := some c }

/-- `MoorhenMap.clearBuffersOfStyle` for the `Coot` style: each buffer of
the style is cleared and removed (by id) from the global GL buffer set,
and the style's list is emptied. -/
def clearBuffersOfStyle (w : MapWorld) : MapWorld :=
  let gl := w.map.displayObjectsCoot.foldl
    (fun g buffer => { g with bufferIds := g.bufferIds.filter (fun i => i != buffer.id) })
    w.gl
  ⟨{ w.map with displayObjectsCoot := [] }, gl⟩

/-! ## `setupContourBuffers` and the contour pipeline -/

/-- The state threaded through the per-object loop of
`setupContourBuffers`: the world plus the call-local
`diffMapColourBuffers` record (`localPos`/`localNeg` are its
`positiveDiffColour`/`negativeDiffColour` arrays). -/
structure ContourLoopAcc where
  world : MapWorld
  localPos : List Nat
  localNeg : List Nat
deriving DecidableEq

/-- The clear-then-append path of the non-difference branch of
`setupContourBuffers` (no existing buffer with matching topology): clear
the style, append one fresh buffer built from the (possibly recoloured)
object, give it the uniform custom colour when `mapAlpha > 0.98`, and
concatenate the call-local colour-offset record onto the stored one. -/
def nondiffFreshBuffers (prms : MapContourParams) (localPos localNeg : List Nat)
    (w : MapWorld) (objectR : MeshObject) : ContourLoopAcc :=
  let w1 := clearBuffersOfStyle w
  let a := (appendOtherData w1.gl objectR).1
  let gl1 := (appendOtherData w1.gl objectR).2
  let a := if prms.mapAlpha > mkRat 49 50 then
      setCustomColour a [prms.mapColour.r, prms.mapColour.g, prms.mapColour.b, 1]
    else a
  ⟨⟨{ w1.map with
      displayObjectsCoot := w1.map.displayObjectsCoot ++ [a],
      positiveDiffColour := w1.map.positiveDiffColour ++ localPos,
      negativeDiffColour := w1.map.negativeDiffColour ++ localNeg }, gl1⟩,
   localPos, localNeg⟩

/-- One iteration of the `objects.forEach` loop of
`MoorhenMap.setupContourBuffers`.

Difference branch: partition the mesh into positive/negative clones by the
red-channel threshold, clear the style, append one buffer per lobe
(marking both transparent when `mapAlpha < 0.99`), and concatenate the
local offset record onto both the instance's stored record and the style
list.

Non-difference branch without `keepCootColours`: recolour every vertex to
the configured colour when `mapAlpha < 0.98`; then mutate the existing
buffer in place when its primitive topology matches, otherwise clear and
append a fresh buffer; the uniform custom-colour path is used when
`mapAlpha > 0.98`.

`keepCootColours` branch: always clear then append, keeping engine
colours. -/
def setupContourBuffersObject (prms : MapContourParams) (keepCootColours : Bool)
    (acc : ContourLoopAcc) (object : MeshObject) : ContourLoopAcc :=
  let w := acc.world
  if w.map.isDifference then
    let s := diffSplitMesh object prms.positiveMapColour prms.negativeMapColour
      prms.mapAlpha
    let object_positive : MeshObject :=
      { object with idx_tri := s.posIdxTri, col_tri := s.posColTri }
    let object_negative : MeshObject :=
      { object with idx_tri := s.negIdxTri, col_tri := s.negColTri }
    let localPos := acc.localPos ++ s.posOffs
    let localNeg := acc.localNeg ++ s.negOffs
    let w1 := clearBuffersOfStyle w
    let a := (appendOtherData w1.gl object_positive).1
    let gl1 := (appendOtherData w1.gl object_positive).2
    let b := (appendOtherData gl1 object_negative).1
    let gl2 := (appendOtherData gl1 object_negative).2
    let a := if prms.mapAlpha < mkRat 99 100 then { a with transparent := true } else a
    let b := if prms.mapAlpha < mkRat 99 100 then { b with transparent := true } else b
    ⟨⟨{ w1.map with
        positiveDiffColour := w1.map.positiveDiffColour ++ localPos,
        negativeDiffColour := w1.map.negativeDiffColour ++ localNeg,
        displayObjectsCoot := (w1.map.displayObjectsCoot ++ [a]) ++ [b] }, gl2⟩,
     localPos, localNeg⟩
  else if !keepCootColours then
    let objectR :=
      if prms.mapAlpha < mkRat 49 50 then
        { object with col_tri := recolourColTri prms.mapColour prms.mapAlpha object.col_tri }
      else object
    match w.map.displayObjectsCoot with
    | buf0 :: rest =>
      if (objectR.prim_types.getD 0 []).get? 0 == buf0.bufferTypes.get? 0 then
        let buf1 :=
          { buf0 with
            triangleVertices :=
              buf0.triangleVertices.set 0 ((objectR.vert_tri.getD 0 []).getD 0 []),
            triangleNormals :=
              buf0.triangleNormals.set 0 ((objectR.norm_tri.getD 0 []).getD 0 []) }
        let buf2 :=
          if prms.mapAlpha > mkRat 49 50 then
            setCustomColour buf1 [prms.mapColour.r, prms.mapColour.g, prms.mapColour.b, 1]
          else
            { buf1 with
              triangleColours :=
                buf1.triangleColours.set 0 ((objectR.col_tri.getD 0 []).getD 0 []) }
        let buf3 :=
          { buf2 with
            triangleIndexs :=
              buf2.triangleIndexs.set 0 ((objectR.idx_tri.getD 0 []).getD 0 []),
            isDirty := true }
        ⟨⟨{ w.map with
            displayObjectsCoot := buf3 :: rest,
            positiveDiffColour := w.map.positiveDiffColour ++ acc.localPos,
            negativeDiffColour := w.map.negativeDiffColour ++ acc.localNeg }, w.gl⟩,
         acc.localPos, acc.localNeg⟩
      else nondiffFreshBuffers prms acc.localPos acc.localNeg w objectR
    | [] => nondiffFreshBuffers prms acc.localPos acc.localNeg w objectR
  else
    let w1 := clearBuffersOfStyle w
    let a := (appendOtherData w1.gl object).1
    let gl1 := (appendOtherData w1.gl object).2
    ⟨⟨{ w1.map with displayObjectsCoot := w1.map.displayObjectsCoot ++ [a] }, gl1⟩,
     acc.localPos, acc.localNeg⟩

/-- `MoorhenMap.setupContourBuffers`: processes the defined objects in
order (with a fresh call-local `diffMapColourBuffers` record), then
rebuilds the aggregate GL buffers and draws the scene exactly once. -/
def setupContourBuffers (w : MapWorld) (prms : MapContourParams)
    (objects : List (Option MeshObject)) (keepCootColours : Bool) :
    MapWorld × List MapEffect :=
  let acc := (objects.filterMap id).foldl
    (setupContourBuffersObject prms keepCootColours) ⟨w, [], []⟩
  (acc.world, [MapEffect.buildBuffers, MapEffect.drawScene])

/-- `MoorhenMap.doCootContour`: issues one contour-mesh command to the
compute engine (the replied mesh is the `responseMesh` parameter) and
feeds the reply to `setupContourBuffers`, preserving engine colours
exactly when another map is used for colouring. -/
def doCootContour (w : MapWorld) (prms : MapContourParams)
    (responseMesh : Option MeshObject) : MapWorld × List MapEffect :=
  let cmd :=
    match w.map.otherMapForColouring with
    | some _ => MapEffect.cootCommand "get_map_contours_mesh_using_other_map_for_colours"
    | none => MapEffect.cootCommand "get_map_contours_mesh"
  let res := setupContourBuffers w prms [responseMesh] w.map.otherMapForColouring.isSome
  (res.1, cmd :: res.2)

/-- `MoorhenMap.delete` (named `deleteMap` here): clears the non-empty
display-object styles, draws the scene, closes the molecule on the engine
and releases the associated reflection data when present. The instance
state itself is not otherwise changed — there is no torn-down flag. -/
def deleteMap (w : MapWorld) : MapWorld × List MapEffect :=
  let w1 := if w.map.displayObjectsCoot.length > 0 then clearBuffersOfStyle w else w
  (w1, [MapEffect.drawScene, MapEffect.cootCommand "close_molecule"] ++
    (if w.map.hasReflectionData then [MapEffect.postMessage "delete_file_name"]
     else []))

/-! ## Recolouring-only operations -/

/-- The per-buffer update of `MoorhenMap.setColour`. -/
def setColourBuffer (mapAlpha : ℚ) (mapColour : Rgb) (buffer : DisplayBuffer) :
    DisplayBuffer :=
  if mapAlpha < mkRat 99 100 then
    { buffer with
      customColour := none, transparent := true,
      triangleColours := buffer.triangleColours.map
        (fun colbuffer => recolourRgbRow mapColour colbuffer),
      isDirty := true, alphaChanged := true }
  else
    { setCustomColour buffer [mapColour.r, mapColour.g, mapColour.b, 1] with
      transparent := false }

/-- `MoorhenMap.setColour`: guarded no-op (console error) on difference
maps; otherwise drops any other-map colouring, recolours or
custom-colours every buffer, and rebuilds/draws. -/
def setColour (w : MapWorld) (prms : MapContourParams) (redraw : Bool) :
    MapWorld × List MapEffect :=
  if w.map.isDifference then
    (w, [MapEffect.consoleError
      "Cannot use moorhen.Map.setColour to change difference map colour. Use moorhen.Map.fetchDiffMapColourAndRedraw instead..."])
  else
    let map1 := { w.map with otherMapForColouring := none }
    let map2 :=
      { map1 with
        displayObjectsCoot :=
          map1.displayObjectsCoot.map (setColourBuffer prms.mapAlpha prms.mapColour) }
    (⟨map2, w.gl⟩,
     (if prms.mapAlpha < mkRat 99 100 then [MapEffect.buildBuffers] else []) ++
       (if redraw then [MapEffect.drawScene] else []))

/-- The two recolouring targets of `fetchDiffMapColourAndRedraw`. -/
inductive DiffColourType where
  | positiveDiffColour
  | negativeDiffColour
deriving DecidableEq

/-- `MoorhenMap.fetchDiffMapColourAndRedraw`: guarded no-op (console error)
on non-difference maps; otherwise recolours the stored colour-offset
partition of the requested lobe through every buffer when
`mapAlpha < 0.99`, or takes the two-buffer custom-colour fast path when
opaque; then rebuilds (only when transparent) and draws. -/
def fetchDiffMapColourAndRedraw (w : MapWorld) (prms : MapContourParams)
    (type : DiffColourType) : MapWorld × List MapEffect :=
  if !w.map.isDifference then
    (w, [MapEffect.consoleError
      "Cannot use moorhen.Map.fetchDiffMapColourAndRedraw to change non-diff map colour. Use moorhen.Map.setColour instead..."])
  else
    let mapColour :=
      match type with
      | .positiveDiffColour => prms.positiveMapColour
      | .negativeDiffColour => prms.negativeMapColour
    let offs :=
      match type with
      | .positiveDiffColour => w.map.positiveDiffColour
      | .negativeDiffColour => w.map.negativeDiffColour
    let map1 :=
      if prms.mapAlpha < mkRat 99 100 then
        { w.map with
          displayObjectsCoot := w.map.displayObjectsCoot.map (fun buffer =>
            { buffer with
              customColour := none, transparent := true,
              triangleColours :=
                buffer.triangleColours.map (writeColourAtOffsets mapColour offs),
              isDirty := true, alphaChanged := true }) }
      else
        match w.map.displayObjectsCoot with
        | [b0, b1] =>
          match type with
          | .positiveDiffColour =>
            { w.map with
              displayObjectsCoot :=
                [{ setCustomColour b0 [mapColour.r, mapColour.g, mapColour.b, 1] with
                   transparent := false }, b1] }
          | .negativeDiffColour =>
            { w.map with
              displayObjectsCoot :=
                [b0, { setCustomColour b1 [mapColour.r, mapColour.g, mapColour.b, 1] with
                       transparent := false }] }
        | _ => w.map
    (⟨map1, w.gl⟩,
     (if prms.mapAlpha < mkRat 99 100 then [MapEffect.buildBuffers] else []) ++
       [MapEffect.drawScene])

/-- The per-buffer update of `MoorhenMap.fetchMapAlphaAndRedraw`. -/
def fetchMapAlphaBuffer (mapAlpha : ℚ) (mapColour : Rgb) (buffer : DisplayBuffer) :
    DisplayBuffer :=
  let buffer :=
    { buffer with
      triangleColours := buffer.triangleColours.map (setAlphaRow mapAlpha),
      isDirty := true, alphaChanged := true }
  if mapAlpha < mkRat 99 100 then
    let buffer := { buffer with transparent := true }
    if (match buffer.customColour with
        | some l => l.length == 4
        | none => false) then
      { buffer with
        customColour := none,
        triangleColours := buffer.triangleColours.map (recolourRgbRow mapColour) }
    else buffer
  else
    let buffer := { buffer with transparent := false }
    if (match buffer.customColour with
        | some l => l.length == 4
        | none => false) then
      setCustomColour buffer [mapColour.r, mapColour.g, mapColour.b, 1]
    else buffer

/-- `MoorhenMap.fetchMapAlphaAndRedraw`: rewrites the alpha channel of
every colour row of every buffer, updates the transparency flag and the
custom colour accordingly, then rebuilds and draws. -/
def fetchMapAlphaAndRedraw (w : MapWorld) (prms : MapContourParams) :
    MapWorld × List MapEffect :=
  (⟨{ w.map with
      displayObjectsCoot :=
        w.map.displayObjectsCoot.map (fetchMapAlphaBuffer prms.mapAlpha prms.mapColour) },
    w.gl⟩,
   [MapEffect.buildBuffers, MapEffect.drawScene])

/-! ## Characterisation of the difference partition -/

/-- The traversal order of one `idxs` list, pairing each triangle-vertex
colour index with the red-channel value read for it. -/
def rowVertexReds (colRow : List ℚ) (idxs : List Nat) : List (Nat × ℚ) :=
  idxs.map (fun idx => (idx, colRow.getD (idx * 4) 0))

/-- The traversal order of one `idxss` group (counter `j`). -/
def groupVertexReds (colRows : List (List ℚ)) :
    List (List Nat) → Nat → List (Nat × ℚ)
  | [], _ => []
  | idxs :: rest, j =>
    rowVertexReds (colRows.getD j []) idxs ++ groupVertexReds colRows rest (j + 1)

/-- The traversal order of a whole `idx_tri` (counter `i`). -/
def triVertexReds (colTri : List (List (List ℚ))) :
    List (List (List Nat)) → Nat → List (Nat × ℚ)
  | [], _ => []
  | idxss :: rest, i =>
    groupVertexReds (colTri.getD i []) idxss 0 ++ triVertexReds colTri rest (i + 1)

/-- Every triangle-vertex colour index of a mesh, in traversal order,
paired with its red-channel value. -/
def meshVertexReds (object : MeshObject) : List (Nat × ℚ) :=
  triVertexReds object.col_tri object.idx_tri 0

theorem splitIdxList_posOffs (origRow : List ℚ) (pc nc : Rgb) (alpha : ℚ)
    (idxs : List Nat) :
    ∀ posRow negRow,
      (splitIdxList origRow pc nc alpha idxs posRow negRow).posOffs =
        ((rowVertexReds origRow idxs).filter (fun p => decide (p.2 < mkRat 1 2))).map
          (fun p => p.1 * 4) := by
  induction idxs with
  | nil => intro posRow negRow; simp [splitIdxList, rowVertexReds]
  | cons idx rest ih =>
    intro posRow negRow
    by_cases h : origRow[idx * 4]?.getD 0 < mkRat 1 2
    · simp [splitIdxList, rowVertexReds, h, ih]
    · simp [splitIdxList, rowVertexReds, h, ih]

theorem splitIdxList_negOffs (origRow : List ℚ) (pc nc : Rgb) (alpha : ℚ)
    (idxs : List Nat) :
    ∀ posRow negRow,
      (splitIdxList origRow pc nc alpha idxs posRow negRow).negOffs =
        ((rowVertexReds origRow idxs).filter (fun p => !decide (p.2 < mkRat 1 2))).map
          (fun p => p.1 * 4) := by
  induction idxs with
  | nil => intro posRow negRow; simp [splitIdxList, rowVertexReds]
  | cons idx rest ih =>
    intro posRow negRow
    by_cases h : origRow[idx * 4]?.getD 0 < mkRat 1 2
    · simp [splitIdxList, rowVertexReds, h, ih]
    · simp [splitIdxList, rowVertexReds, h, ih]

theorem splitIdxGroup_posOffs (origRows : List (List ℚ)) (pc nc : Rgb) (alpha : ℚ)
    (idxss : List (List Nat)) :
    ∀ j posRows negRows,
      (splitIdxGroup origRows pc nc alpha idxss j posRows negRows).posOffs =
        ((groupVertexReds origRows idxss j).filter (fun p => decide (p.2 < mkRat 1 2))).map
          (fun p => p.1 * 4) := by
  induction idxss with
  | nil => intro j posRows negRows; simp [splitIdxGroup, groupVertexReds]
  | cons idxs rest ih =>
    intro j posRows negRows
    simp [splitIdxGroup, groupVertexReds, List.filter_append, List.map_append,
      splitIdxList_posOffs, ih]

theorem splitIdxGroup_negOffs (origRows : List (List ℚ)) (pc nc : Rgb) (alpha : ℚ)
    (idxss : List (List Nat)) :
    ∀ j posRows negRows,
      (splitIdxGroup origRows pc nc alpha idxss j posRows negRows).negOffs =
        ((groupVertexReds origRows idxss j).filter (fun p => !decide (p.2 < mkRat 1 2))).map
          (fun p => p.1 * 4) := by
  induction idxss with
  | nil => intro j posRows negRows; simp [splitIdxGroup, groupVertexReds]
  | cons idxs rest ih =>
    intro j posRows negRows
    simp [splitIdxGroup, groupVertexReds, List.filter_append, List.map_append,
      splitIdxList_negOffs, ih]

theorem splitIdxTri_posOffs (origColTri : List (List (List ℚ))) (pc nc : Rgb)
    (alpha : ℚ) (idxTri : List (List (List Nat))) :
    ∀ i posColTri negColTri,
      (splitIdxTri origColTri pc nc alpha idxTri i posColTri negColTri).posOffs =
        ((triVertexReds origColTri idxTri i).filter (fun p => decide (p.2 < mkRat 1 2))).map
          (fun p => p.1 * 4) := by
  induction idxTri with
  | nil => intro i posColTri negColTri; simp [splitIdxTri, triVertexReds]
  | cons idxss rest ih =>
    intro i posColTri negColTri
    simp [splitIdxTri, triVertexReds, List.filter_append, List.map_append,
      splitIdxGroup_posOffs, ih]

theorem splitIdxTri_negOffs (origColTri : List (List (List ℚ))) (pc nc : Rgb)
    (alpha : ℚ) (idxTri : List (List (List Nat))) :
    ∀ i posColTri negColTri,
      (splitIdxTri origColTri pc nc alpha idxTri i posColTri negColTri).negOffs =
        ((triVertexReds origColTri idxTri i).filter (fun p => !decide (p.2 < mkRat 1 2))).map
          (fun p => p.1 * 4) := by
  induction idxTri with
  | nil => intro i posColTri negColTri; simp [splitIdxTri, triVertexReds]
  | cons idxss rest ih =>
    intro i posColTri negColTri
    simp [splitIdxTri, triVertexReds, List.filter_append, List.map_append,
      splitIdxGroup_negOffs, ih]

theorem diffSplitMesh_posOffs (object : MeshObject) (pc nc : Rgb) (alpha : ℚ) :
    (diffSplitMesh object pc nc alpha).posOffs =
      ((meshVertexReds object).filter (fun p => decide (p.2 < mkRat 1 2))).map
        (fun p => p.1 * 4) := by
  simp [diffSplitMesh, meshVertexReds, splitIdxTri_posOffs]

theorem diffSplitMesh_negOffs (object : MeshObject) (pc nc : Rgb) (alpha : ℚ) :
    (diffSplitMesh object pc nc alpha).negOffs =
      ((meshVertexReds object).filter (fun p => !decide (p.2 < mkRat 1 2))).map
        (fun p => p.1 * 4) := by
  simp [diffSplitMesh, meshVertexReds, splitIdxTri_negOffs]

/-! ## Behaviour of a full difference-map contour pass -/

theorem clearBuffers_foldl_nextId (bufs : List DisplayBuffer) :
    ∀ gl : GlState,
      (bufs.foldl (fun g buffer =>
        { g with bufferIds := g.bufferIds.filter (fun i => i != buffer.id) }) gl).nextId
        = gl.nextId := by
  induction bufs with
  | nil => intro gl; rfl
  | cons b bs ih => intro gl; simp [List.foldl_cons, ih]

theorem setupContourBuffers_difference_run (w : MapWorld) (prms : MapContourParams)
    (object : MeshObject) (keepCootColours : Bool)
    (hdiff : w.map.isDifference = true) :
    (setupContourBuffers w prms [some object] keepCootColours).1.map.displayObjectsCoot.length
        = 2 ∧
    (setupContourBuffers w prms [some object] keepCootColours).1.map.positiveDiffColour =
      w.map.positiveDiffColour ++
        (diffSplitMesh object prms.positiveMapColour prms.negativeMapColour
          prms.mapAlpha).posOffs ∧
    (setupContourBuffers w prms [some object] keepCootColours).1.map.negativeDiffColour =
      w.map.negativeDiffColour ++
        (diffSplitMesh object prms.positiveMapColour prms.negativeMapColour
          prms.mapAlpha).negOffs ∧
    (prms.mapAlpha < mkRat 99 100 →
      ((setupContourBuffers w prms [some object] keepCootColours).1.map.displayObjectsCoot.all
        (fun b => b.transparent)) = true) ∧
    (setupContourBuffers w prms [some object] keepCootColours).2 =
      [MapEffect.buildBuffers, MapEffect.drawScene] ∧
    (setupContourBuffers w prms [some object] keepCootColours).1.gl.bufferIds =
      (clearBuffersOfStyle w).gl.bufferIds ++ [w.gl.nextId, w.gl.nextId + 1] := by
  by_cases ha : prms.mapAlpha < mkRat 99 100
  · simp [setupContourBuffers, setupContourBuffersObject, hdiff, ha,
      appendOtherData, clearBuffersOfStyle, clearBuffers_foldl_nextId]
  · simp [setupContourBuffers, setupContourBuffersObject, hdiff, ha,
      appendOtherData, clearBuffersOfStyle, clearBuffers_foldl_nextId]

/-! ## Concrete fixtures -/

/-- A small two-vertex mesh: vertex 0 has red channel `0` (positive lobe),
vertex 1 has red channel `1` (negative lobe). -/
def demoMesh : MeshObject :=
  { prim_types := [[1]],
    idx_tri := [[[0, 1]]],
    vert_tri := [[[0, 0, 0, 1, 1, 1]]],
    norm_tri := [[[0, 0, 1, 0, 0, 1]]],
    col_tri := [[[0, 0, 0, 1, 1, 0, 0, 1]]] }

/-- Opaque contour parameters. -/
def demoPrms : MapContourParams :=
  { mapRadius := 13, contourLevel := mkRat 4 5, mapAlpha := 1, mapStyle := "lines",
    mapColour := ⟨mkRat 1 5, mkRat 3 10, mkRat 7 10⟩, positiveMapColour := ⟨mkRat 2 5, mkRat 4 5, mkRat 2 5⟩,
    negativeMapColour := ⟨mkRat 4 5, mkRat 2 5, mkRat 2 5⟩ }

/-- Transparent contour parameters (`mapAlpha = 0.5`). -/
def demoPrmsTransparent : MapContourParams :=
  { demoPrms with mapAlpha := mkRat 1 2 }

/-- A freshly loaded difference map with no buffers yet. -/
def demoDiffWorld : MapWorld :=
  ⟨{ isDifference := true, hasReflectionData := false, otherMapForColouring := none,
     displayObjectsCoot := [], positiveDiffColour := [], negativeDiffColour := [] },
   { bufferIds := [], nextId := 0 }⟩

/-- C2: on a contour pass of a difference map, every triangle-vertex colour
index is assigned to the positive lobe exactly when its red-channel value
is `< 0.5` and to the negative lobe otherwise (the recorded colour offsets
are exactly the filtered traversal, scaled by 4); exactly one
DisplayBuffer is appended per lobe (the pass leaves exactly two), and when
the global alpha is `< 0.99` the transparent flag is set on both. -/
theorem setupContourBuffers_difference_partition (w : MapWorld)
    (prms : MapContourParams) (object : MeshObject) (keepCootColours : Bool)
    (hdiff : w.map.isDifference = true) :
    (diffSplitMesh object prms.positiveMapColour prms.negativeMapColour
        prms.mapAlpha).posOffs =
      ((meshVertexReds object).filter (fun p => decide (p.2 < mkRat 1 2))).map
        (fun p => p.1 * 4) ∧
    (diffSplitMesh object prms.positiveMapColour prms.negativeMapColour
        prms.mapAlpha).negOffs =
      ((meshVertexReds object).filter (fun p => !decide (p.2 < mkRat 1 2))).map
        (fun p => p.1 * 4) ∧
    (setupContourBuffers w prms [some object] keepCootColours).1.map.displayObjectsCoot.length
      = 2 ∧
    (prms.mapAlpha < mkRat 99 100 →
      ((setupContourBuffers w prms [some object] keepCootColours).1.map.displayObjectsCoot.all
        (fun b => b.transparent)) = true) := by
  have hrun := setupContourBuffers_difference_run w prms object keepCootColours hdiff
  exact ⟨diffSplitMesh_posOffs object prms.positiveMapColour prms.negativeMapColour
      prms.mapAlpha,
    diffSplitMesh_negOffs object prms.positiveMapColour prms.negativeMapColour
      prms.mapAlpha,
    hrun.1, hrun.2.2.2.1⟩

/-- Witness for C2 at a concrete transparent difference-map pass. -/
theorem setupContourBuffers_difference_partition_witness :
    demoDiffWorld.map.isDifference = true ∧
    demoPrmsTransparent.mapAlpha < mkRat 99 100 ∧
    (setupContourBuffers demoDiffWorld demoPrmsTransparent [some demoMesh]
        false).1.map.displayObjectsCoot.length = 2 ∧
    ((setupContourBuffers demoDiffWorld demoPrmsTransparent [some demoMesh]
        false).1.map.displayObjectsCoot.all (fun b => b.transparent)) = true :=
  ⟨by decide, by decide,
   (setupContourBuffers_difference_partition demoDiffWorld demoPrmsTransparent
     demoMesh false (by decide)).2.2.1,
   (setupContourBuffers_difference_partition demoDiffWorld demoPrmsTransparent
     demoMesh false (by decide)).2.2.2 (by decide)⟩

/-- C3 counterexample: after a second full contour pass on the same
difference-map instance, the stored `diffMapColourBuffers` record holds
the offsets of both passes (`[0, 0]`), not just the offsets computed from
that pass's mesh (`[0]`): the pass concatenates onto the stored record
instead of replacing it. -/
theorem diffMapColourBuffers_accumulate_counterexample :
    ((setupContourBuffers
        (setupContourBuffers demoDiffWorld demoPrms [some demoMesh] false).1
        demoPrms [some demoMesh] false).1.map.positiveDiffColour = [0, 0]) ∧
    (diffSplitMesh demoMesh demoPrms.positiveMapColour demoPrms.negativeMapColour
        demoPrms.mapAlpha).posOffs = [0] ∧
    ¬ ((setupContourBuffers
        (setupContourBuffers demoDiffWorld demoPrms [some demoMesh] false).1
        demoPrms [some demoMesh] false).1.map.positiveDiffColour =
      (diffSplitMesh demoMesh demoPrms.positiveMapColour demoPrms.negativeMapColour
        demoPrms.mapAlpha).posOffs) := by
  decide

/-- C3 (amended): after a full contour pass on a difference map, the stored
`diffMapColourBuffers` record equals the record stored before the pass
with the offsets computed from that pass's mesh concatenated on; only on a
fresh instance (empty stored record) does it hold exactly that pass's
offsets. -/
theorem diffMapColourBuffers_concat (w : MapWorld) (prms : MapContourParams)
    (object : MeshObject) (keepCootColours : Bool)
    (hdiff : w.map.isDifference = true) :
    (setupContourBuffers w prms [some object] keepCootColours).1.map.positiveDiffColour =
      w.map.positiveDiffColour ++
        (diffSplitMesh object prms.positiveMapColour prms.negativeMapColour
          prms.mapAlpha).posOffs ∧
    (setupContourBuffers w prms [some object] keepCootColours).1.map.negativeDiffColour =
      w.map.negativeDiffColour ++
        (diffSplitMesh object prms.positiveMapColour prms.negativeMapColour
          prms.mapAlpha).negOffs :=
  ⟨(setupContourBuffers_difference_run w prms object keepCootColours hdiff).2.1,
   (setupContourBuffers_difference_run w prms object keepCootColours hdiff).2.2.1⟩

/-- Witness for C3 (amended) on a concrete second pass. -/
theorem diffMapColourBuffers_concat_witness :
    (setupContourBuffers demoDiffWorld demoPrms [some demoMesh]
        false).1.map.isDifference = true ∧
    (setupContourBuffers
        (setupContourBuffers demoDiffWorld demoPrms [some demoMesh] false).1
        demoPrms [some demoMesh] false).1.map.positiveDiffColour =
      (setupContourBuffers demoDiffWorld demoPrms [some demoMesh]
          false).1.map.positiveDiffColour ++
        (diffSplitMesh demoMesh demoPrms.positiveMapColour demoPrms.negativeMapColour
          demoPrms.mapAlpha).posOffs :=
  ⟨by decide,
   (diffMapColourBuffers_concat
     (setupContourBuffers demoDiffWorld demoPrms [some demoMesh] false).1
     demoPrms demoMesh false (by decide)).1⟩

/-! ## Disposal and in-flight contour requests -/

theorem deleteMap_preserves_isDifference (w : MapWorld) :
    (deleteMap w).1.map.isDifference = w.map.isDifference := by
  simp only [deleteMap]
  split
  · simp [clearBuffersOfStyle]
  · rfl

/-- C5 counterexample: disposing a difference map and then letting a
pending contour request resolve attaches two DisplayBuffers to the
instance and to the GL buffer set, and draws the scene — the late result
is applied, not discarded (there is no torn-down guard in `delete` /
`setupContourBuffers`). -/
theorem late_contour_applied_counterexample :
    (deleteMap demoDiffWorld).1.map.displayObjectsCoot = [] ∧
    (doCootContour (deleteMap demoDiffWorld).1 demoPrms
        (some demoMesh)).1.map.displayObjectsCoot.length = 2 ∧
    ¬ ((doCootContour (deleteMap demoDiffWorld).1 demoPrms
        (some demoMesh)).1.gl.bufferIds = []) ∧
    MapEffect.drawScene ∈
      (doCootContour (deleteMap demoDiffWorld).1 demoPrms (some demoMesh)).2 := by
  decide

/-- C5 (amended): when a contour request resolves after `delete()` has run
on a difference-map instance, the result is applied exactly as on a live
instance: two DisplayBuffers are attached to the instance and to the GL
buffer set, and a render (`drawScene`) occurs. -/
theorem late_contour_applied (w : MapWorld) (prms : MapContourParams)
    (object : MeshObject) (hdiff : w.map.isDifference = true) :
    (doCootContour (deleteMap w).1 prms
        (some object)).1.map.displayObjectsCoot.length = 2 ∧
    ¬ ((doCootContour (deleteMap w).1 prms (some object)).1.gl.bufferIds = []) ∧
    MapEffect.drawScene ∈ (doCootContour (deleteMap w).1 prms (some object)).2 := by
  have hdiff' : (deleteMap w).1.map.isDifference = true :=
    (deleteMap_preserves_isDifference w).trans hdiff
  have hrun := setupContourBuffers_difference_run (deleteMap w).1 prms object
    ((deleteMap w).1.map.otherMapForColouring.isSome) hdiff'
  refine ⟨?_, ?_, ?_⟩
  · simpa [doCootContour] using hrun.1
  · have hgl := hrun.2.2.2.2.2
    simp only [doCootContour]
    simp [hgl]
  · have heff := hrun.2.2.2.2.1
    simp only [doCootContour]
    simp [heff]

/-- Witness for C5 (amended) at the concrete disposed world. -/
theorem late_contour_applied_witness :
    demoDiffWorld.map.isDifference = true ∧
    (doCootContour (deleteMap demoDiffWorld).1 demoPrms
        (some demoMesh)).1.map.displayObjectsCoot.length = 2 ∧
    ¬ ((doCootContour (deleteMap demoDiffWorld).1 demoPrms
        (some demoMesh)).1.gl.bufferIds = []) ∧
    MapEffect.drawScene ∈
      (doCootContour (deleteMap demoDiffWorld).1 demoPrms (some demoMesh)).2 :=
  ⟨by decide, (late_contour_applied demoDiffWorld demoPrms demoMesh (by decide)).1,
   (late_contour_applied demoDiffWorld demoPrms demoMesh (by decide)).2.1,
   (late_contour_applied demoDiffWorld demoPrms demoMesh (by decide)).2.2⟩

/-! ## The non-difference buffer-synchronisation policy -/

theorem recolourRow_uniform (c : Rgb) (alpha : ℚ) :
    ∀ (n : Nat) (row : List ℚ), row.length = 4 * n →
      recolourRow c alpha row = (List.replicate n [c.r, c.g, c.b, alpha]).flatten := by
  intro n
  induction n with
  | zero =>
    intro row h
    have hnil : row = [] := List.length_eq_zero.mp (by omega)
    subst hnil
    simp [recolourRow]
  | succ k ih =>
    intro row h
    rcases row with _ | ⟨x0, _ | ⟨x1, _ | ⟨x2, _ | ⟨x3, rest⟩⟩⟩⟩
    · simp at h
    · simp at h; omega
    · simp at h; omega
    · simp at h; omega
    · have hr : rest.length = 4 * k := by simp at h; omega
      simp [recolourRow, List.replicate_succ, ih rest hr]

theorem setupContourBuffers_nondiff_fresh (w : MapWorld) (prms : MapContourParams)
    (object : MeshObject) (hnd : w.map.isDifference = false)
    (hempty : w.map.displayObjectsCoot = []) :
    (setupContourBuffers w prms [some object] false).1.map.displayObjectsCoot =
      [{ id := w.gl.nextId,
         bufferTypes := object.prim_types.getD 0 [],
         triangleVertices := object.vert_tri.getD 0 [],
         triangleNormals := object.norm_tri.getD 0 [],
         triangleColours :=
           (if prms.mapAlpha < mkRat 49 50 then
              recolourColTri prms.mapColour prms.mapAlpha object.col_tri
            else object.col_tri).getD 0 [],
         triangleIndexs := object.idx_tri.getD 0 [],
         transparent := false, isDirty := false, alphaChanged := false,
         customColour :=
           if prms.mapAlpha > mkRat 49 50 then
             some [prms.mapColour.r, prms.mapColour.g, prms.mapColour.b, 1]
           else none }] ∧
    (setupContourBuffers w prms [some object] false).1.gl.bufferIds =
      w.gl.bufferIds ++ [w.gl.nextId] := by
  by_cases h1 : prms.mapAlpha < mkRat 49 50
  · have h2 : ¬ prms.mapAlpha > mkRat 49 50 := fun h => absurd h1 (not_lt.mpr (le_of_lt h))
    constructor <;>
      simp [setupContourBuffers, setupContourBuffersObject, hnd, hempty,
        nondiffFreshBuffers, appendOtherData, clearBuffersOfStyle, setCustomColour, h1, h2]
  · by_cases h2 : prms.mapAlpha > mkRat 49 50
    · constructor <;>
        simp [setupContourBuffers, setupContourBuffersObject, hnd, hempty,
          nondiffFreshBuffers, appendOtherData, clearBuffersOfStyle, setCustomColour, h1, h2]
    · constructor <;>
        simp [setupContourBuffers, setupContourBuffersObject, hnd, hempty,
          nondiffFreshBuffers, appendOtherData, clearBuffersOfStyle, setCustomColour, h1, h2]

theorem setupContourBuffers_nondiff_inplace (w : MapWorld) (prms : MapContourParams)
    (object : MeshObject) (buf0 : DisplayBuffer) (rest : List DisplayBuffer)
    (hnd : w.map.isDifference = false)
    (hcoot : w.map.displayObjectsCoot = buf0 :: rest)
    (hmatch : ((object.prim_types.getD 0 []).get? 0 == buf0.bufferTypes.get? 0) = true) :
    (setupContourBuffers w prms [some object] false).1.gl = w.gl ∧
    (setupContourBuffers w prms [some object] false).1.map.displayObjectsCoot =
      { buf0 with
        triangleVertices :=
          buf0.triangleVertices.set 0 ((object.vert_tri.getD 0 []).getD 0 []),
        triangleNormals :=
          buf0.triangleNormals.set 0 ((object.norm_tri.getD 0 []).getD 0 []),
        triangleIndexs :=
          buf0.triangleIndexs.set 0 ((object.idx_tri.getD 0 []).getD 0 []),
        isDirty := true,
        customColour :=
          if prms.mapAlpha > mkRat 49 50 then
            some [prms.mapColour.r, prms.mapColour.g, prms.mapColour.b, 1]
          else buf0.customColour,
        triangleColours :=
          if prms.mapAlpha > mkRat 49 50 then buf0.triangleColours
          else
            buf0.triangleColours.set 0
              (((if prms.mapAlpha < mkRat 49 50 then
                   recolourColTri prms.mapColour prms.mapAlpha object.col_tri
                 else object.col_tri).getD 0 []).getD 0 []) } :: rest := by
  have hm : (object.prim_types[0]?.getD [])[0]? = buf0.bufferTypes[0]? := by
    simpa using hmatch
  by_cases h1 : prms.mapAlpha < mkRat 49 50
  · have h2 : ¬ prms.mapAlpha > mkRat 49 50 := fun h => absurd h1 (not_lt.mpr (le_of_lt h))
    constructor <;>
      simp [setupContourBuffers, setupContourBuffersObject, hnd, hcoot,
        setCustomColour, h1, h2, hm]
  · by_cases h2 : prms.mapAlpha > mkRat 49 50
    · constructor <;>
        simp [setupContourBuffers, setupContourBuffersObject, hnd, hcoot,
          setCustomColour, h1, h2, hm]
    · constructor <;>
        simp [setupContourBuffers, setupContourBuffersObject, hnd, hcoot,
          setCustomColour, h1, h2, hm]

theorem setupContourBuffers_nondiff_rebuild (w : MapWorld) (prms : MapContourParams)
    (object : MeshObject) (buf0 : DisplayBuffer) (rest : List DisplayBuffer)
    (hnd : w.map.isDifference = false)
    (hcoot : w.map.displayObjectsCoot = buf0 :: rest)
    (hmatch : ((object.prim_types.getD 0 []).get? 0 == buf0.bufferTypes.get? 0) = false) :
    (setupContourBuffers w prms [some object] false).1.map.displayObjectsCoot =
      [{ id := w.gl.nextId,
         bufferTypes := object.prim_types.getD 0 [],
         triangleVertices := object.vert_tri.getD 0 [],
         triangleNormals := object.norm_tri.getD 0 [],
         triangleColours :=
           (if prms.mapAlpha < mkRat 49 50 then
              recolourColTri prms.mapColour prms.mapAlpha object.col_tri
            else object.col_tri).getD 0 [],
         triangleIndexs := object.idx_tri.getD 0 [],
         transparent := false, isDirty := false, alphaChanged := false,
         customColour :=
           if prms.mapAlpha > mkRat 49 50 then
             some [prms.mapColour.r, prms.mapColour.g, prms.mapColour.b, 1]
           else none }] := by
  have hm : ¬ ((object.prim_types[0]?.getD [])[0]? = buf0.bufferTypes[0]?) := by
    simpa using hmatch
  by_cases h1 : prms.mapAlpha < mkRat 49 50
  · have h2 : ¬ prms.mapAlpha > mkRat 49 50 := fun h => absurd h1 (not_lt.mpr (le_of_lt h))
    simp [setupContourBuffers, setupContourBuffersObject, hnd, hcoot,
      nondiffFreshBuffers, appendOtherData, clearBuffersOfStyle, setCustomColour,
      clearBuffers_foldl_nextId, h1, h2, hm]
  · by_cases h2 : prms.mapAlpha > mkRat 49 50
    · simp [setupContourBuffers, setupContourBuffersObject, hnd, hcoot,
        nondiffFreshBuffers, appendOtherData, clearBuffersOfStyle, setCustomColour,
        clearBuffers_foldl_nextId, h1, h2, hm]
    · simp [setupContourBuffers, setupContourBuffersObject, hnd, hcoot,
        nondiffFreshBuffers, appendOtherData, clearBuffersOfStyle, setCustomColour,
        clearBuffers_foldl_nextId, h1, h2, hm]

/-- A non-difference mesh whose first primitive type is `3`. -/
def demoMesh2 : MeshObject :=
  { prim_types := [[3]],
    idx_tri := [[[0, 1]]],
    vert_tri := [[[0, 0, 0, 1, 1, 1]]],
    norm_tri := [[[0, 0, 1, 0, 0, 1]]],
    col_tri := [[[mkRat 1 10, mkRat 1 5, mkRat 3 10, 1,
                  mkRat 1 2, mkRat 3 5, mkRat 7 10, 1]]] }

/-- An existing display buffer with the same primitive topology. -/
def demoBuf : DisplayBuffer :=
  { id := 7, bufferTypes := [3],
    triangleVertices := [[9, 9, 9]], triangleNormals := [[1, 0, 0]],
    triangleColours := [[mkRat 1 2, mkRat 1 2, mkRat 1 2, 1]],
    triangleIndexs := [[0]],
    transparent := false, isDirty := false, alphaChanged := false,
    customColour := none }

/-- A contoured non-difference map owning `demoBuf`. -/
def demoNonDiffWorld : MapWorld :=
  ⟨{ isDifference := false, hasReflectionData := false, otherMapForColouring := none,
     displayObjectsCoot := [demoBuf], positiveDiffColour := [], negativeDiffColour := [] },
   { bufferIds := [7], nextId := 8 }⟩

/-- Contour parameters with alpha exactly `0.98`. -/
def prms98 : MapContourParams :=
  { demoPrms with mapAlpha := mkRat 49 50 }

/-- C7 counterexample: at global alpha exactly `0.98` (which is `≥ 0.98`),
a non-difference contour pass neither uses the uniform-colour path (the
resulting buffer's custom colour stays unset) nor leaves the individual
vertex colours untouched (the buffer's colour row is reassigned to the
engine colours of the incoming mesh): the source tests `< 0.98` for the
rewrite but `> 0.98` for `setCustomColour`, leaving the boundary to a
third behaviour. -/
theorem setupContourBuffers_nondiff_boundary_counterexample :
    ¬ (prms98.mapAlpha < mkRat 49 50) ∧
    ((setupContourBuffers demoNonDiffWorld prms98 [some demoMesh2]
        false).1.map.displayObjectsCoot.map (fun b => b.customColour)) = [none] ∧
    ¬ (((setupContourBuffers demoNonDiffWorld prms98 [some demoMesh2]
        false).1.map.displayObjectsCoot.map (fun b => b.triangleColours)) =
      [demoBuf.triangleColours]) := by
  decide

/-- C7 (amended): on a non-difference contour pass that does not preserve
engine colours: (1) the recolouring loop rewrites every rgba quadruple of
a colour row to the configured single colour, and it runs exactly when
alpha `< 0.98`; (2) with no existing buffer, a fresh buffer is created
carrying the (conditionally recoloured) mesh arrays, with the uniform
custom colour exactly when alpha `> 0.98`; (3) with an existing buffer of
matching primitive topology, that buffer is mutated in place (the GL
buffer set is untouched, the buffer keeps its id, its
vertex/normal/index arrays are reassigned and it is marked dirty), taking
the uniform custom-colour path exactly when alpha `> 0.98` and the
per-vertex path otherwise; (4) with an existing buffer of non-matching
topology, the old buffer is cleared and a fresh one created. At alpha
exactly `0.98` neither the rewrite nor the uniform path runs: the engine
colours are kept on the per-vertex path. -/
theorem setupContourBuffers_nondiff_policy :
    (∀ (c : Rgb) (alpha : ℚ) (n : Nat) (row : List ℚ), row.length = 4 * n →
      recolourRow c alpha row = (List.replicate n [c.r, c.g, c.b, alpha]).flatten) ∧
    (∀ (w : MapWorld) (prms : MapContourParams) (object : MeshObject),
      w.map.isDifference = false → w.map.displayObjectsCoot = [] →
      (setupContourBuffers w prms [some object] false).1.map.displayObjectsCoot =
        [{ id := w.gl.nextId,
           bufferTypes := object.prim_types.getD 0 [],
           triangleVertices := object.vert_tri.getD 0 [],
           triangleNormals := object.norm_tri.getD 0 [],
           triangleColours :=
             (if prms.mapAlpha < mkRat 49 50 then
                recolourColTri prms.mapColour prms.mapAlpha object.col_tri
              else object.col_tri).getD 0 [],
           triangleIndexs := object.idx_tri.getD 0 [],
           transparent := false, isDirty := false, alphaChanged := false,
           customColour :=
             if prms.mapAlpha > mkRat 49 50 then
               some [prms.mapColour.r, prms.mapColour.g, prms.mapColour.b, 1]
             else none }]) ∧
    (∀ (w : MapWorld) (prms : MapContourParams) (object : MeshObject)
       (buf0 : DisplayBuffer) (rest : List DisplayBuffer),
      w.map.isDifference = false → w.map.displayObjectsCoot = buf0 :: rest →
      ((object.prim_types.getD 0 []).get? 0 == buf0.bufferTypes.get? 0) = true →
      (setupContourBuffers w prms [some object] false).1.gl = w.gl ∧
      (setupContourBuffers w prms [some object] false).1.map.displayObjectsCoot =
        { buf0 with
          triangleVertices :=
            buf0.triangleVertices.set 0 ((object.vert_tri.getD 0 []).getD 0 []),
          triangleNormals :=
            buf0.triangleNormals.set 0 ((object.norm_tri.getD 0 []).getD 0 []),
          triangleIndexs :=
            buf0.triangleIndexs.set 0 ((object.idx_tri.getD 0 []).getD 0 []),
          isDirty := true,
          customColour :=
            if prms.mapAlpha > mkRat 49 50 then
              some [prms.mapColour.r, prms.mapColour.g, prms.mapColour.b, 1]
            else buf0.customColour,
          triangleColours :=
            if prms.mapAlpha > mkRat 49 50 then buf0.triangleColours
            else
              buf0.triangleColours.set 0
                (((if prms.mapAlpha < mkRat 49 50 then
                     recolourColTri prms.mapColour prms.mapAlpha object.col_tri
                   else object.col_tri).getD 0 []).getD 0 []) } :: rest) ∧
    (∀ (w : MapWorld) (prms : MapContourParams) (object : MeshObject)
       (buf0 : DisplayBuffer) (rest : List DisplayBuffer),
      w.map.isDifference = false → w.map.displayObjectsCoot = buf0 :: rest →
      ((object.prim_types.getD 0 []).get? 0 == buf0.bufferTypes.get? 0) = false →
      (setupContourBuffers w prms [some object] false).1.map.displayObjectsCoot =
        [{ id := w.gl.nextId,
           bufferTypes := object.prim_types.getD 0 [],
           triangleVertices := object.vert_tri.getD 0 [],
           triangleNormals := object.norm_tri.getD 0 [],
           triangleColours :=
             (if prms.mapAlpha < mkRat 49 50 then
                recolourColTri prms.mapColour prms.mapAlpha object.col_tri
              else object.col_tri).getD 0 [],
           triangleIndexs := object.idx_tri.getD 0 [],
           transparent := false, isDirty := false, alphaChanged := false,
           customColour :=
             if prms.mapAlpha > mkRat 49 50 then
               some [prms.mapColour.r, prms.mapColour.g, prms.mapColour.b, 1]
             else none }]) :=
  ⟨fun c alpha => recolourRow_uniform c alpha,
   fun w prms object hnd hempty =>
     (setupContourBuffers_nondiff_fresh w prms object hnd hempty).1,
   fun w prms object buf0 rest hnd hcoot hmatch =>
     setupContourBuffers_nondiff_inplace w prms object buf0 rest hnd hcoot hmatch,
   fun w prms object buf0 rest hnd hcoot hmatch =>
     setupContourBuffers_nondiff_rebuild w prms object buf0 rest hnd hcoot hmatch⟩

/-- Witness for C7 (amended): an opaque in-place pass on the concrete
matching world keeps the GL buffer set untouched and takes the uniform
custom-colour path. -/
theorem setupContourBuffers_nondiff_policy_witness :
    demoNonDiffWorld.map.isDifference = false ∧
    demoNonDiffWorld.map.displayObjectsCoot = demoBuf :: [] ∧
    ((demoMesh2.prim_types.getD 0 []).get? 0 == demoBuf.bufferTypes.get? 0) = true ∧
    (setupContourBuffers demoNonDiffWorld demoPrms [some demoMesh2] false).1.gl =
      demoNonDiffWorld.gl :=
  ⟨by decide, by decide, by decide,
   (setupContourBuffers_nondiff_policy.2.2.1 demoNonDiffWorld demoPrms demoMesh2
     demoBuf [] (by decide) (by decide) (by decide)).1⟩

/-! ## Recolouring-only operations: frame and guards -/

/-- C8: the recolouring-only operations `setColour`,
`fetchDiffMapColourAndRedraw` and `fetchMapAlphaAndRedraw` never post any
message to the compute engine — every effect they perform is a rendering
call (or a console error), never a `cootCommand`/`postMessage`. -/
theorem recolouringOps_no_engine_calls (w : MapWorld) (prms : MapContourParams)
    (redraw : Bool) (type : DiffColourType) :
    ((setColour w prms redraw).2.all (fun e => !e.isEngineCall)) = true ∧
    ((fetchDiffMapColourAndRedraw w prms type).2.all (fun e => !e.isEngineCall)) = true ∧
    ((fetchMapAlphaAndRedraw w prms).2.all (fun e => !e.isEngineCall)) = true := by
  refine ⟨?_, ?_, ?_⟩
  · simp only [setColour]
    split_ifs <;> simp [MapEffect.isEngineCall]
  · simp only [fetchDiffMapColourAndRedraw]
    split_ifs <;> simp [MapEffect.isEngineCall]
  · simp [fetchMapAlphaAndRedraw, MapEffect.isEngineCall]

/-- C9: calling `setColour` on a difference map, or
`fetchDiffMapColourAndRedraw` on a non-difference map, logs a console
error and is otherwise a no-op: the instance state (and the GL state) is
returned unchanged and no exception is raised (the model is total). -/
theorem recolouring_guard_noop (w : MapWorld) (prms : MapContourParams)
    (redraw : Bool) (type : DiffColourType) :
    (w.map.isDifference = true →
      setColour w prms redraw =
        (w, [MapEffect.consoleError
          "Cannot use moorhen.Map.setColour to change difference map colour. Use moorhen.Map.fetchDiffMapColourAndRedraw instead..."])) ∧
    (w.map.isDifference = false →
      fetchDiffMapColourAndRedraw w prms type =
        (w, [MapEffect.consoleError
          "Cannot use moorhen.Map.fetchDiffMapColourAndRedraw to change non-diff map colour. Use moorhen.Map.setColour instead..."])) := by
  constructor
  · intro h
    simp [setColour, h]
  · intro h
    simp [fetchDiffMapColourAndRedraw, h]

/-- Witness for C9 at concrete difference and non-difference worlds. -/
theorem recolouring_guard_noop_witness :
    demoDiffWorld.map.isDifference = true ∧
    setColour demoDiffWorld demoPrms true =
      (demoDiffWorld, [MapEffect.consoleError
        "Cannot use moorhen.Map.setColour to change difference map colour. Use moorhen.Map.fetchDiffMapColourAndRedraw instead..."]) ∧
    demoNonDiffWorld.map.isDifference = false ∧
    fetchDiffMapColourAndRedraw demoNonDiffWorld demoPrms
        DiffColourType.positiveDiffColour =
      (demoNonDiffWorld, [MapEffect.consoleError
        "Cannot use moorhen.Map.fetchDiffMapColourAndRedraw to change non-diff map colour. Use moorhen.Map.setColour instead..."]) :=
  ⟨rfl,
   (recolouring_guard_noop demoDiffWorld demoPrms true
     DiffColourType.positiveDiffColour).1 rfl,
   rfl,
   (recolouring_guard_noop demoNonDiffWorld demoPrms true
     DiffColourType.positiveDiffColour).2 rfl⟩

/-! ## Truthiness fallback in `getMapContourParams` -/

/-- C10: when the settings store holds an entry for this map with a stored
numeric value of `0` (contour level 0, radius 0 or alpha 0),
`getMapContourParams` returns the built-in defaults (radius 13, contour
level 0.8, alpha 1) instead of the stored `0`, because the fallback tests
the value's truthiness rather than the entry's presence. -/
theorem getMapContourParams_zero_falls_back (state : MapContourSettingsState)
    (molNo : Nat) (dc dpc dnc : Rgb)
    (hr : state.mapRadii.find? (fun item => item.molNo == molNo) = some ⟨molNo, 0⟩)
    (hl : state.contourLevels.find? (fun item => item.molNo == molNo) = some ⟨molNo, 0⟩)
    (ha : state.mapAlpha.find? (fun item => item.molNo == molNo) = some ⟨molNo, 0⟩) :
    (getMapContourParams state molNo dc dpc dnc).mapRadius = 13 ∧
    (getMapContourParams state molNo dc dpc dnc).contourLevel = mkRat 4 5 ∧
    (getMapContourParams state molNo dc dpc dnc).mapAlpha = 1 := by
  refine ⟨?_, ?_, ?_⟩ <;>
    simp [getMapContourParams, hr, hl, ha, truthyNumOr, _DEFAULT_RADIUS,
      _DEFAULT_CONTOUR_LEVEL, _DEFAULT_ALPHA]

/-- A settings store holding explicit zeros for map number 3. -/
def demoSettings : MapContourSettingsState :=
  { mapRadii := [⟨3, 0⟩], contourLevels := [⟨3, 0⟩], mapAlpha := [⟨3, 0⟩],
    mapStyles := [], mapColours := [], negativeMapColours := [],
    positiveMapColours := [] }

/-- Witness for C10 at a concrete store with stored zeros. -/
theorem getMapContourParams_zero_falls_back_witness :
    demoSettings.mapRadii.find? (fun item => item.molNo == 3) = some ⟨3, 0⟩ ∧
    (getMapContourParams demoSettings 3 _DEFAULT_MAP_COLOUR
        _DEFAULT_POSITIVE_MAP_COLOUR _DEFAULT_NEGATIVE_MAP_COLOUR).mapRadius = 13 ∧
    (getMapContourParams demoSettings 3 _DEFAULT_MAP_COLOUR
        _DEFAULT_POSITIVE_MAP_COLOUR _DEFAULT_NEGATIVE_MAP_COLOUR).contourLevel =
      mkRat 4 5 ∧
    (getMapContourParams demoSettings 3 _DEFAULT_MAP_COLOUR
        _DEFAULT_POSITIVE_MAP_COLOUR _DEFAULT_NEGATIVE_MAP_COLOUR).mapAlpha = 1 :=
  ⟨by decide,
   (getMapContourParams_zero_falls_back demoSettings 3 _DEFAULT_MAP_COLOUR
     _DEFAULT_POSITIVE_MAP_COLOUR _DEFAULT_NEGATIVE_MAP_COLOUR
     (by decide) (by decide) (by decide)).1,
   (getMapContourParams_zero_falls_back demoSettings 3 _DEFAULT_MAP_COLOUR
     _DEFAULT_POSITIVE_MAP_COLOUR _DEFAULT_NEGATIVE_MAP_COLOUR
     (by decide) (by decide) (by decide)).2.1,
   (getMapContourParams_zero_falls_back demoSettings 3 _DEFAULT_MAP_COLOUR
     _DEFAULT_POSITIVE_MAP_COLOUR _DEFAULT_NEGATIVE_MAP_COLOUR
     (by decide) (by decide) (by decide)).2.2⟩

/-- Witness for C4 (amended) on the concrete 3-descriptor batch. -/
theorem cootCommandList_journal_appends_all_witness :
    cootCommandList [] demoDescriptors true = [] ++ demoDescriptors :=
  cootCommandList_journal_appends_all [] demoDescriptors

/-- Witness for C8 at a concrete recolouring call. -/
theorem recolouringOps_no_engine_calls_witness :
    ((setColour demoNonDiffWorld demoPrms true).2.all (fun e => !e.isEngineCall)) = true :=
  (recolouringOps_no_engine_calls demoNonDiffWorld demoPrms true
    DiffColourType.positiveDiffColour).1
